import Mathlib

/-!
Verification development for the MCC-Pytorch repository: a shallow embedding of
the operator binding layer (`pt_mcc/ops.py`), the point-hierarchy and
convolution builders (`utils/MCConvBuilder.py`) and the batches-per-epoch
computation of the static-graph training driver (`ModelNet/ModelNet.py`),
together with theorems settling the specification claims about them.
Tensors are modelled as shape/dtype/device/grad-flag records with rational
payloads; the native kernels (which live outside the Python sources) are
abstracted as function parameters, except where the spec pins their contract
down, in which case they are modelled from the spec and marked as such.
-/

namespace MCC

/-- Element types of the tensors occurring in the embedded code. -/
inductive DType where
  | float32
  | int32
  | int64
  | boolTy
deriving DecidableEq, Repr

/-- Device placement of a tensor (`.cuda()` moves a tensor to `cuda`). -/
inductive Device where
  | cpu
  | cuda
deriving DecidableEq, Repr

/-- Shallow model of a torch tensor: shape, element type, device, the
autograd tracking flag, and a flattened rational payload. -/
structure Tensor where
  shape : List Nat
  dtype : DType
  device : Device
  requiresGrad : Bool
  data : List ℚ
deriving DecidableEq, Repr

/-- Number of elements described by a shape. -/
def numel (shape : List Nat) : Nat := shape.foldl (· * ·) 1

/-- Model of `torch.ones(shape, dtype=...).cuda()` as used at
MCConvBuilder.py line 403: a fresh tensor of ones, not tracking gradients. -/
def torch_ones (shape : List Nat) (dtype : DType) : Tensor :=
  { shape := shape, dtype := dtype, device := Device.cuda,
    requiresGrad := false, data := List.replicate (numel shape) 1 }

/-- Model of `torch.empty_like(t)`: same shape/dtype/device, fresh
(uninitialized, here zeroed) storage, no gradient tracking. -/
def empty_like (t : Tensor) : Tensor :=
  { shape := t.shape, dtype := t.dtype, device := t.device,
    requiresGrad := false, data := List.replicate (numel t.shape) 0 }

/-- Model of exiting a `torch.no_grad()` scope: the produced tensor does not
track gradients. -/
def noGrad (t : Tensor) : Tensor := { t with requiresGrad := false }

/-- Error raised by a failed `torch._check(...)` inside a fake kernel. -/
inductive CheckError where
  | checkFailed
deriving DecidableEq, Repr

/-- Embedding of the fake (abstract / shape-inference) kernel registered for
`pt_mcc::compute_aabb` at ops.py lines 21-24: it checks that `pts` and
`batch_ids` share a device and returns `(empty_like(pts), empty_like(pts))`.
The `batch_size` and `scale_inv` arguments are accepted but unused. -/
def fake_compute_aabb (pts batch_ids : Tensor) (batch_size : Int)
    (scale_inv : Bool) : Except CheckError (Tensor × Tensor) :=
  if pts.device ≠ batch_ids.device then Except.error CheckError.checkFailed
  else
    have _ := batch_size
    have _ := scale_inv
    Except.ok (empty_like pts, empty_like pts)

/-- Modelled from the spec: the native `compute_aabb` kernel (its compiled
implementation is not among the Python sources) returns a per-batch-entry
minimum and maximum corner, each of shape batchSize × 3 (spec section 3,
"Axis-aligned bounding box (AABB) pair", and section 4.3). Only its output
shapes are needed here. -/
def real_compute_aabb_shapes (batchSize : Nat) : List Nat × List Nat :=
  ([batchSize, 3], [batchSize, 3])

/-- Modelled from the spec: the native `pt_mcc::mymul` kernel (not among the
Python sources) is the elementwise product used by the registered backward of
`mymuladd`, whose gradient contract is `grad*b` and `grad*a`
(spec section 4.3, `mymuladd` row). -/
def mymul (a b : Tensor) : Tensor :=
  { shape := a.shape, dtype := a.dtype, device := a.device,
    requiresGrad := false,
    data := List.zipWith (fun x y => x * y) a.data b.data }

/-- Autograd context as used by `_setup_context` / `_backward` in ops.py:
the pair saved by `ctx.save_for_backward(saved_a, saved_b)` and the
`needs_input_grad` triple (one flag per input `a`, `b`, `c`). -/
structure AutogradCtx where
  saved_tensors : Option Tensor × Option Tensor
  needs_input_grad : Bool × Bool × Bool
deriving DecidableEq, Repr

/-- Embedding of `_setup_context(ctx, inputs, output)` (ops.py lines 49-56):
`saved_b` is set to `b` only when input 0 (`a`) needs a gradient, `saved_a`
to `a` only when input 1 (`b`) needs one, and the pair `(saved_a, saved_b)`
is saved. The scalar input `c` is unpacked but never saved. -/
def mymuladd_setup_context (needs : Bool × Bool × Bool) (a b : Tensor)
    (c : ℚ) : AutogradCtx :=
  have _ := c
  let saved_b : Option Tensor := if needs.1 then some b else none
  let saved_a : Option Tensor := if needs.2.1 then some a else none
  { saved_tensors := (saved_a, saved_b), needs_input_grad := needs }

/-- Embedding of `_backward(ctx, grad)` (ops.py lines 39-46): it unpacks
`a, b = ctx.saved_tensors`, computes `grad_a = mymul(grad, b)` only when
input 0 needs a gradient and `grad_b = mymul(grad, a)` only when input 1
does, and returns `(grad_a, grad_b, None)`. -/
def mymuladd_backward (ctx : AutogradCtx) (grad : Tensor) :
    Option Tensor × Option Tensor × Option Tensor :=
  let a := ctx.saved_tensors.1
  let b := ctx.saved_tensors.2
  let grad_a : Option Tensor :=
    if ctx.needs_input_grad.1 then b.map (fun t => mymul grad t) else none
  let grad_b : Option Tensor :=
    if ctx.needs_input_grad.2.1 then a.map (fun t => mymul grad t) else none
  (grad_a, grad_b, none)

/-- Embedding of the batches-per-epoch computation of the static-graph
training driver (ModelNet.py lines 148-150).  Under Python 3, `/` on
integers is true division, so the quotient is a rational, and the
remainder test adds 1 to that rational quotient. -/
def numBatchesXEpoch (numTrainModels batchSize : Int) : ℚ :=
  let q : ℚ := (numTrainModels : ℚ) / (batchSize : ℚ)
  if numTrainModels % batchSize ≠ 0 then q + 1 else q

/-- Abstract interface for the native kernels invoked by
`PointHierarchy.__init__` (MCConvBuilder.py lines 86-119).  Their compiled
implementations are outside the Python sources, so they are kept as opaque
function parameters: every theorem below holds for any implementation.
Tensors are abstracted to a type parameter `T`; radii are rationals. -/
structure HierKernels (T : Type) where
  compute_aabb : T → T → Int → Bool → T × T
  sort_points_step1 : T → T → T → T → Int → ℚ → Bool → T × T
  sort_points_step2 : T → T → T → T → T → T → T → Int → ℚ → Bool →
    T × T × T × T
  poisson_sampling : T → T → T → T → T → ℚ → Int → Bool → T × T × T
  get_sampled_features : T → T → T
  transform_indices : T → T → T

/-- Call-trace events recorded while running the embedded
`PointHierarchy.__init__`; each event keeps the arguments needed to state
which AABB pair (and, for `compute_aabb`, which point tensors) a kernel call
received. -/
inductive HEvent (T : Type) where
  | aabbCall (pts batchIds : T) (batchSize : Int) (rel : Bool)
  | step1Call (aabbMin aabbMax : T)
  | step2Call (aabbMin aabbMax : T)
  | poissonCall (aabbMin aabbMax : T)
deriving DecidableEq, Repr

/-- Whether an event is the `compute_aabb` call. -/
def HEvent.isAabbCall {T : Type} : HEvent T → Bool
  | .aabbCall _ _ _ _ => true
  | _ => false

/-- Whether an event passed exactly the given AABB pair to its kernel
(`compute_aabb` itself takes no AABB and is vacuously fine). -/
def HEvent.aabbOk {T : Type} [DecidableEq T] (mn mx : T) : HEvent T → Bool
  | .aabbCall _ _ _ _ => true
  | .step1Call a b => a = mn ∧ b = mx
  | .step2Call a b => a = mn ∧ b = mx
  | .poissonCall a b => a = mn ∧ b = mx

/-- Embedding of the point-hierarchy data (MCConvBuilder.py lines 76-90). -/
structure PointHierarchy (T : Type) where
  points_ : List T
  features_ : List T
  batchIds_ : List T
  sampledIndexs_ : List T
  radiusList_ : List ℚ
  batchSize_ : Int
  relativeRadius_ : Bool
  hierarchyName_ : String
  aabbMin_ : T
  aabbMax_ : T

/-- Embedding of the level-construction loop of `PointHierarchy.__init__`
(MCConvBuilder.py lines 103-131), one iteration per radius: grid sort
(step 1, step 2), Poisson sampling, feature gather and index composition,
threading `(currPts, currFeatures, currBatchIds)` and returning the lists
appended by the loop together with the kernel-call trace.  Both `self.aabbMin_`
and the local `aabbMin` of the source hold the same tensor, so a single
`aabbMin` argument stands for both. -/
def hierarchyLevels {T : Type} (K : HierKernels T) (aabbMin aabbMax : T)
    (batchSize : Int) (rel : Bool) :
    List ℚ → T → T → T →
    List T × List T × List T × List T × List ℚ × List (HEvent T)
  | [], _, _, _ => ([], [], [], [], [], [])
  | currRadius :: rest, currPts, currFeatures, currBatchIds =>
    let s1 := K.sort_points_step1 currPts currBatchIds aabbMin aabbMax
      batchSize currRadius rel
    let s2 := K.sort_points_step2 currPts currBatchIds currFeatures s1.1 s1.2
      aabbMin aabbMax batchSize currRadius rel
    let ps := K.poisson_sampling s2.1 s2.2.1 s2.2.2.2 aabbMin aabbMax
      currRadius batchSize rel
    let sampledFeatures := K.get_sampled_features ps.2.2 s2.2.2.1
    let transformedIndexs := K.transform_indices ps.2.2 s1.2
    let tail := hierarchyLevels K aabbMin aabbMax batchSize rel rest
      ps.1 sampledFeatures ps.2.1
    (ps.1 :: tail.1, sampledFeatures :: tail.2.1, ps.2.1 :: tail.2.2.1,
     transformedIndexs :: tail.2.2.2.1, currRadius :: tail.2.2.2.2.1,
     HEvent.step1Call aabbMin aabbMax :: HEvent.step2Call aabbMin aabbMax ::
       HEvent.poissonCall aabbMin aabbMax :: tail.2.2.2.2.2)

/-- Embedding of `PointHierarchy.__init__` (MCConvBuilder.py lines 57-131):
initialize the level lists with the raw input, compute the AABB once from the
level-0 input, then run the per-radius loop.  Returns the constructed
hierarchy and the kernel-call trace. -/
def PointHierarchy.build {T : Type} (K : HierKernels T)
    (inPoints inFeatures inBatchIds : T) (radiusList : List ℚ)
    (hierarchyName : String) (batchSize : Int) (relativeRadius : Bool) :
    PointHierarchy T × List (HEvent T) :=
  let aabb := K.compute_aabb inPoints inBatchIds batchSize relativeRadius
  let lv := hierarchyLevels K aabb.1 aabb.2 batchSize relativeRadius
    radiusList inPoints inFeatures inBatchIds
  ({ points_ := inPoints :: lv.1,
     features_ := inFeatures :: lv.2.1,
     batchIds_ := inBatchIds :: lv.2.2.1,
     sampledIndexs_ := lv.2.2.2.1,
     radiusList_ := 0 :: lv.2.2.2.2.1,
     batchSize_ := batchSize,
     relativeRadius_ := relativeRadius,
     hierarchyName_ := hierarchyName,
     aabbMin_ := aabb.1,
     aabbMax_ := aabb.2 },
   HEvent.aabbCall inPoints inBatchIds batchSize relativeRadius ::
     lv.2.2.2.2.2)

/-- View of a point hierarchy as read by `ConvolutionBuilder.forward`:
name, batch size, per-level point and batch-id tensors (list indexing is
modelled as a function from level), and the cached AABB pair. -/
structure PHMeta where
  hierarchyName_ : String
  batchSize_ : Int
  points_ : Nat → Tensor
  batchIds_ : Nat → Tensor
  aabbMin_ : Tensor
  aabbMax_ : Tensor

/-- The two `RuntimeError`s `forward` can raise (MCConvBuilder.py lines
345-352). -/
inductive ConvError where
  | batchMismatch
  | featureMismatch
deriving DecidableEq, Repr

/-- The grid tuple `(sortPts, sortBatchs, cellIndexs, indexs)` cached in
`cacheGrids_`. -/
def GridTuple : Type := Tensor × Tensor × Tensor × Tensor

instance : DecidableEq GridTuple := by
  unfold GridTuple
  infer_instance

/-- The six learnable parameter tensors of a convolution builder
(MCConvBuilder.py lines 239-244); their random initialization is abstracted
as given values. -/
structure ConvParams where
  weights : Tensor
  biases : Tensor
  weights2 : Tensor
  biases2 : Tensor
  weights3 : Tensor
  biases3 : Tensor
deriving DecidableEq, Repr

/-- The arguments `forward` passes to the `spatial_conv` kernel
(MCConvBuilder.py lines 415-420). -/
structure SpatialConvArgs where
  sortPts : Tensor
  sortFeatures : Tensor
  sortBatchs : Tensor
  pdfs : Tensor
  outPts : Tensor
  startIndexs : Tensor
  packedNeighs : Tensor
  aabbMin : Tensor
  aabbMax : Tensor
  params : ConvParams
  numOutFeatures : Int
  combin : Bool
  batchSize : Int
  radius : ℚ
  scaleInv : Bool
  avg : Bool
deriving DecidableEq, Repr

/-- Kernel calls issued by one execution of `ConvolutionBuilder.forward`;
the `spatial_conv` event records the full argument list passed to it. -/
inductive COp where
  | opSortStep1
  | opSortStep2
  | opSortFeatures
  | opFindNeighbors
  | opComputePdf
  | opSpatialConv (args : SpatialConvArgs)
deriving DecidableEq, Repr

/-- Abstract interface for the native kernels invoked by
`ConvolutionBuilder.forward`; as with `HierKernels`, the compiled
implementations live outside the Python sources, so theorems quantify over
them. -/
structure ConvKernels where
  sort_points_step1 : Tensor → Tensor → Tensor → Tensor → Int → ℚ → Bool →
    Tensor × Tensor
  sort_points_step2 : Tensor → Tensor → Tensor → Tensor → Tensor → Tensor →
    Tensor → Int → ℚ → Bool → Tensor × Tensor × Tensor × Tensor
  sort_features : Tensor → Tensor → Tensor
  find_neighbors : Tensor → Tensor → Tensor → Tensor → Tensor → Tensor →
    ℚ → Int → Bool → Tensor × Tensor
  compute_pdf : Tensor → Tensor → Tensor → Tensor → Tensor → Tensor →
    ℚ → ℚ → Int → Bool → Tensor
  spatial_conv : SpatialConvArgs → Tensor

/-- Embedding of the `ConvolutionBuilder` instance state (MCConvBuilder.py
lines 196-214): the three caches (modelled as association lists), the
convolution configuration, and the parameter tensors. -/
structure ConvolutionBuilder where
  cacheGrids_ : List (String × GridTuple)
  cacheNeighs_ : List (String × (Tensor × Tensor))
  cachePDFs_ : List (String × Tensor)
  inPointLevel : Nat
  outPointLevel : Nat
  inNumFeatures : Int
  outNumFeatures : Int
  convRadius : ℚ
  multiFeatureConvs_ : Bool
  KDEWindow_ : ℚ
  relativeRadius_ : Bool
  usePDF_ : Bool
  useAVG_ : Bool
  decayLossCollection_ : String
  params : ConvParams

/-- Embedding of `ConvolutionBuilder.__init__` (MCConvBuilder.py lines
163-248): empty caches, configuration stored as given except that
`outNumFeatures` defaults to `inNumFeatures` when the argument is `-1`;
the parameter tensors (randomly initialized in the source) are taken as an
argument. -/
def ConvolutionBuilder.init (KDEWindow : ℚ) (inPointLevel outPointLevel : Nat)
    (inNumFeatures outNumFeatures : Int) (convRadius : ℚ)
    (multiFeatureConvs relativeRadius usePDF useAVG : Bool)
    (decayLossCollection : String) (prm : ConvParams) : ConvolutionBuilder :=
  { cacheGrids_ := [], cacheNeighs_ := [], cachePDFs_ := [],
    inPointLevel := inPointLevel, outPointLevel := outPointLevel,
    inNumFeatures := inNumFeatures,
    outNumFeatures := if outNumFeatures = -1 then inNumFeatures
      else outNumFeatures,
    convRadius := convRadius,
    multiFeatureConvs_ := multiFeatureConvs, KDEWindow_ := KDEWindow,
    relativeRadius_ := relativeRadius, usePDF_ := usePDF, useAVG_ := useAVG,
    decayLossCollection_ := decayLossCollection, params := prm }

/-- Embedding of `ConvolutionBuilder.reset` (MCConvBuilder.py lines 288-293):
the three caches become empty dictionaries; nothing else changes. -/
def ConvolutionBuilder.reset (self : ConvolutionBuilder) :
    ConvolutionBuilder :=
  { self with cacheGrids_ := [], cacheNeighs_ := [], cachePDFs_ := [] }

/-- Embedding of `ConvolutionBuilder.__compute_dic_keys__` (MCConvBuilder.py
lines 250-285): the grid key concatenates input hierarchy name, input level,
radius and relative flag with a `|` delimiter; the neighbor key extends it
with the output hierarchy name and level; the PDF key extends that with the
KDE window and the use-PDF flag. -/
def compute_dic_keys (inPointHierarchy outPointHierarchy : PHMeta)
    (inPointLevel outPointLevel : Nat) (convRadius KDEWindow : ℚ)
    (relativeRadius usePDF : Bool) : String × String × String :=
  let keyGrid := inPointHierarchy.hierarchyName_ ++ "|" ++
    toString inPointLevel ++ "|" ++ toString convRadius ++ "|" ++
    toString relativeRadius
  let keyNeighs := keyGrid ++ "|" ++ outPointHierarchy.hierarchyName_ ++
    "|" ++ toString outPointLevel
  let keyPDF := keyNeighs ++ "|" ++ toString KDEWindow ++ "|" ++
    toString usePDF
  (keyGrid, keyNeighs, keyPDF)

/-- Result of one `forward` call: the returned tensor (or the raised
`RuntimeError`), the instance state after the call, and the kernel-call
trace. -/
structure ForwardResult where
  output : Except ConvError Tensor
  post : ConvolutionBuilder
  trace : List COp

/-- Grid-distribution step of `forward` (MCConvBuilder.py lines 359-375):
on a cache hit only the features are re-sorted with the cached permutation;
on a miss the two-step grid sort runs and the grid tuple
`(sortPts, sortBatchs, cellIndexs, indexs)` is assembled.  The store into
`cacheGrids_` (line 375) is commented out in the source. -/
def gridStepF (K : ConvKernels) (self : ConvolutionBuilder)
    (inPointHierarchy : PHMeta) (inFeatures : Tensor) (keyGrid : String) :
    GridTuple × Tensor × List COp :=
  match List.lookup keyGrid self.cacheGrids_ with
  | some currGridTuple =>
    (currGridTuple, K.sort_features inFeatures currGridTuple.2.2.2,
     [COp.opSortFeatures])
  | none =>
    let s1 := K.sort_points_step1
      (inPointHierarchy.points_ self.inPointLevel)
      (inPointHierarchy.batchIds_ self.inPointLevel)
      inPointHierarchy.aabbMin_ inPointHierarchy.aabbMax_
      inPointHierarchy.batchSize_ self.convRadius self.relativeRadius_
    let s2 := K.sort_points_step2
      (inPointHierarchy.points_ self.inPointLevel)
      (inPointHierarchy.batchIds_ self.inPointLevel) inFeatures s1.1 s1.2
      inPointHierarchy.aabbMin_ inPointHierarchy.aabbMax_
      inPointHierarchy.batchSize_ self.convRadius self.relativeRadius_
    ((s2.1, s2.2.1, s2.2.2.2, s1.2), s2.2.2.1,
     [COp.opSortStep1, COp.opSortStep2])

/-- Neighbor step of `forward` (MCConvBuilder.py lines 377-389): cache hit
returns the stored tuple, miss runs `find_neighbors` on the output level's
points against the grid.  The store into `cacheNeighs_` (line 389) is
commented out in the source.  The output hierarchy is the input hierarchy
(line 340). -/
def neighStepF (K : ConvKernels) (self : ConvolutionBuilder)
    (inPointHierarchy : PHMeta) (keyNeighs : String)
    (currGridTuple : GridTuple) : (Tensor × Tensor) × List COp :=
  match List.lookup keyNeighs self.cacheNeighs_ with
  | some currNeighTuple => (currNeighTuple, [])
  | none =>
    (K.find_neighbors (inPointHierarchy.points_ self.outPointLevel)
      (inPointHierarchy.batchIds_ self.outPointLevel)
      currGridTuple.1 currGridTuple.2.2.1 inPointHierarchy.aabbMin_
      inPointHierarchy.aabbMax_ self.convRadius
      inPointHierarchy.batchSize_ self.relativeRadius_,
     [COp.opFindNeighbors])

/-- PDF step of `forward` (MCConvBuilder.py lines 391-405): cache hit
returns the stored tensor; on a miss, with the use-PDF flag set,
`compute_pdf` runs inside `torch.no_grad()`, otherwise a float32 tensor of
ones with one row per packed neighbor entry is created.  The store into
`cachePDFs_` (line 405) is commented out in the source. -/
def pdfStepF (K : ConvKernels) (self : ConvolutionBuilder)
    (inPointHierarchy : PHMeta) (keyPDF : String)
    (currGridTuple : GridTuple) (currNeighTuple : Tensor × Tensor) :
    Tensor × List COp :=
  match List.lookup keyPDF self.cachePDFs_ with
  | some currPDFs => (currPDFs, [])
  | none =>
    if self.usePDF_ then
      (noGrad (K.compute_pdf currGridTuple.1 currGridTuple.2.1
        inPointHierarchy.aabbMin_ inPointHierarchy.aabbMax_
        currNeighTuple.1 currNeighTuple.2 self.KDEWindow_ self.convRadius
        inPointHierarchy.batchSize_ self.relativeRadius_),
       [COp.opComputePdf])
    else
      (torch_ones [currNeighTuple.2.shape.headD 0, 1] DType.float32, [])

/-- The argument record `forward` passes to `spatial_conv`
(MCConvBuilder.py lines 407-420). -/
def convArgsF (self : ConvolutionBuilder) (inPointHierarchy : PHMeta)
    (currGridTuple : GridTuple) (sortFeaturesT : Tensor)
    (currNeighTuple : Tensor × Tensor) (currPDFs : Tensor) :
    SpatialConvArgs :=
  { sortPts := currGridTuple.1, sortFeatures := sortFeaturesT,
    sortBatchs := currGridTuple.2.1, pdfs := currPDFs,
    outPts := inPointHierarchy.points_ self.outPointLevel,
    startIndexs := currNeighTuple.1, packedNeighs := currNeighTuple.2,
    aabbMin := inPointHierarchy.aabbMin_,
    aabbMax := inPointHierarchy.aabbMax_,
    params := self.params, numOutFeatures := self.outNumFeatures,
    combin := self.multiFeatureConvs_,
    batchSize := inPointHierarchy.batchSize_,
    radius := self.convRadius, scaleInv := self.relativeRadius_,
    avg := self.useAVG_ }

/-- Embedding of the body of `ConvolutionBuilder.forward` (MCConvBuilder.py
lines 296-421).  The configuration is read from the instance; the output
hierarchy is set to the input hierarchy (line 340), so the batch-size check
compares the input hierarchy with itself.  After the two validation checks
the grid, neighbor and PDF steps run (each consulting its cache), and
`spatial_conv` is invoked on the result.  No cache is ever written, so the
instance state is unchanged. -/
def ConvolutionBuilder.forwardParts (K : ConvKernels)
    (self : ConvolutionBuilder) (inPointHierarchy : PHMeta)
    (inFeatures : Tensor) : Except ConvError Tensor × List COp :=
  let currOutPointHierarchy := inPointHierarchy
  if currOutPointHierarchy.batchSize_ ≠ inPointHierarchy.batchSize_ then
    (Except.error ConvError.batchMismatch, [])
  else if self.multiFeatureConvs_ = false ∧
      self.outNumFeatures ≠ self.inNumFeatures then
    (Except.error ConvError.featureMismatch, [])
  else
    let ks := compute_dic_keys inPointHierarchy currOutPointHierarchy
      self.inPointLevel self.outPointLevel self.convRadius self.KDEWindow_
      self.relativeRadius_ self.usePDF_
    let gs := gridStepF K self inPointHierarchy inFeatures ks.1
    let ns := neighStepF K self inPointHierarchy ks.2.1 gs.1
    let ps := pdfStepF K self inPointHierarchy ks.2.2 gs.1 ns.1
    let args := convArgsF self inPointHierarchy gs.1 gs.2.1 ns.1 ps.1
    (Except.ok (K.spatial_conv args),
     gs.2.2 ++ ns.2 ++ ps.2 ++ [COp.opSpatialConv args])

/-- `forward` packaged with its post state: the source body contains no
assignment to `self` (the three cache stores are commented out), so the
post state is the unchanged instance. -/
def ConvolutionBuilder.forward (K : ConvKernels) (self : ConvolutionBuilder)
    (inPointHierarchy : PHMeta) (inFeatures : Tensor) : ForwardResult :=
  let p := ConvolutionBuilder.forwardParts K self inPointHierarchy inFeatures
  { output := p.1, post := self, trace := p.2 }

/-- Concrete 1 × 3 float tensor used as a test fixture. -/
def t0 : Tensor :=
  { shape := [1, 3], dtype := DType.float32, device := Device.cpu,
    requiresGrad := false, data := [0, 0, 0] }

/-- Concrete 4 × 3 float tensor: four points, as in the smoke script of
test_extension.py (line 116). -/
def pts4 : Tensor :=
  { shape := [4, 3], dtype := DType.float32, device := Device.cpu,
    requiresGrad := false,
    data := [0, 0, 0, 1, 0, 0, 0, 1, 0, 0, 0, 1] }

/-- Concrete 4 × 1 batch-id tensor on the same device as `pts4`. -/
def bids4 : Tensor :=
  { shape := [4, 1], dtype := DType.int32, device := Device.cpu,
    requiresGrad := false, data := [0, 0, 1, 1] }

/-- Constant convolution-kernel instance used to evaluate the embedded
`forward` at concrete inputs. -/
def constKernels : ConvKernels :=
  { sort_points_step1 := fun _ _ _ _ _ _ _ => (t0, t0),
    sort_points_step2 := fun _ _ _ _ _ _ _ _ _ _ => (t0, t0, t0, t0),
    sort_features := fun _ _ => t0,
    find_neighbors := fun _ _ _ _ _ _ _ _ _ => (t0, t0),
    compute_pdf := fun _ _ _ _ _ _ _ _ _ _ => t0,
    spatial_conv := fun _ => t0 }

/-- Concrete parameter tensors for a builder fixture. -/
def prm0 : ConvParams :=
  { weights := t0, biases := t0, weights2 := t0, biases2 := t0,
    weights3 := t0, biases3 := t0 }

/-- Point-hierarchy view fixture with a given batch size. -/
def phWith (batchSize : Int) : PHMeta :=
  { hierarchyName_ := "MC_PH", batchSize_ := batchSize,
    points_ := fun _ => t0, batchIds_ := fun _ => t0,
    aabbMin_ := t0, aabbMax_ := t0 }

/-- Builder fixture with the source's default configuration shape:
levels 2 → 3, 0 input features, `outNumFeatures = -1` (so it defaults to the
input feature count), single-feature convolution, relative radius, no PDF. -/
def builder0 : ConvolutionBuilder :=
  ConvolutionBuilder.init 1 2 3 0 (-1) 2 false true false true
    "weight_decay_loss" prm0

/-- Same fixture but with density weighting (`usePDF`) enabled. -/
def builderPDF : ConvolutionBuilder :=
  ConvolutionBuilder.init 1 2 3 0 (-1) 2 false true true true
    "weight_decay_loss" prm0

/-- Constant hierarchy-kernel instance over `Nat` tensors, used to evaluate
the embedded `PointHierarchy.__init__` at concrete inputs. -/
def natKernels : HierKernels Nat :=
  { compute_aabb := fun _ _ _ _ => (7, 9),
    sort_points_step1 := fun _ _ _ _ _ _ _ => (0, 0),
    sort_points_step2 := fun _ _ _ _ _ _ _ _ _ _ => (0, 0, 0, 0),
    poisson_sampling := fun _ _ _ _ _ _ _ _ => (0, 0, 0),
    get_sampled_features := fun _ _ => 0,
    transform_indices := fun _ _ => 0 }

/-- C4: the static-graph training driver is claimed to compute
`numBatchesXEpoch = ceil(numTrainModels / batchSize)`; at
`numTrainModels = 10`, `batchSize = 4` the code (Python 3 true division
plus one) yields `7/2`, while the ceiling is `3`, so the computed value is
not the ceiling. -/
theorem C4_numBatchesXEpoch_not_ceil :
    numBatchesXEpoch 10 4 = 7 / 2 ∧ ⌈(10 : ℚ) / 4⌉ = 3 ∧
    numBatchesXEpoch 10 4 ≠ ((3 : ℤ) : ℚ) := by
  refine ⟨?_, ?_, ?_⟩
  · norm_num [numBatchesXEpoch]
  · norm_num [Int.ceil_eq_iff]
  · norm_num [numBatchesXEpoch]

/-- C5: the fake kernel for `pt_mcc::compute_aabb` is claimed to return a
pair of `B × 3` tensors; on four points (`pts` of shape `4 × 3`) with
`batch_size = 2` it instead returns two tensors shaped like `pts`
(`4 × 3`), which differs from the `2 × 3` shape of the real kernel's
per-batch-entry corners. -/
theorem C5_fake_aabb_wrong_shape :
    fake_compute_aabb pts4 bids4 2 true =
      Except.ok (empty_like pts4, empty_like pts4) ∧
    (empty_like pts4).shape = [4, 3] ∧
    real_compute_aabb_shapes 2 = ([2, 3], [2, 3]) ∧
    (empty_like pts4).shape ≠ [2, 3] := by
  refine ⟨rfl, rfl, rfl, by decide⟩

/-- C6: composing the registered `setup_context` and `backward` of
`mymuladd`, the backward produces `grad*b` for `a` exactly when `a`'s
gradient is requested, `grad*a` for `b` exactly when `b`'s gradient is
requested, and `None` for `c`; the context saves `b` only when `a`'s
gradient is requested and `a` only when `b`'s is; and `grad*b` is the
elementwise product. -/
theorem C6_mymuladd_backward_correct :
    ∀ (needs : Bool × Bool × Bool) (a b grad : Tensor) (c : ℚ),
      mymuladd_backward (mymuladd_setup_context needs a b c) grad =
        ((if needs.1 then some (mymul grad b) else none),
         (if needs.2.1 then some (mymul grad a) else none),
         none) ∧
      (mymuladd_setup_context needs a b c).saved_tensors.2 =
        (if needs.1 then some b else none) ∧
      (mymuladd_setup_context needs a b c).saved_tensors.1 =
        (if needs.2.1 then some a else none) ∧
      (mymul grad b).data =
        List.zipWith (fun x y => x * y) grad.data b.data := by
  intro needs a b grad c
  obtain ⟨n1, n2, n3⟩ := needs
  cases n1 <;> cases n2 <;>
    simp [mymuladd_backward, mymuladd_setup_context, mymul]

/-- Helper: the batch-size test of `forward` compares the output hierarchy
with the input hierarchy, which are the same object, so its condition is
false and the branch raising `batchMismatch` is unreachable. -/
theorem forwardParts_ne_batchMismatch (K : ConvKernels)
    (B : ConvolutionBuilder) (h : PHMeta) (f : Tensor) :
    (ConvolutionBuilder.forwardParts K B h f).1 ≠
      Except.error ConvError.batchMismatch := by
  unfold ConvolutionBuilder.forwardParts
  rw [if_neg (by simp)]
  split
  · simp
  · simp

/-- Helper: `forward` raises an error exactly when the convolution is not
multi-feature and the stored output feature count differs from the stored
input feature count; the error is then `featureMismatch`. -/
theorem forwardParts_error_iff (K : ConvKernels) (B : ConvolutionBuilder)
    (h : PHMeta) (f : Tensor) :
    (∃ e, (ConvolutionBuilder.forwardParts K B h f).1 = Except.error e) ↔
      (B.multiFeatureConvs_ = false ∧
        B.outNumFeatures ≠ B.inNumFeatures) := by
  unfold ConvolutionBuilder.forwardParts
  rw [if_neg (by simp)]
  by_cases hc : B.multiFeatureConvs_ = false ∧
      B.outNumFeatures ≠ B.inNumFeatures
  · rw [if_pos hc]
    exact ⟨fun _ => hc, fun _ => ⟨ConvError.featureMismatch, rfl⟩⟩
  · rw [if_neg hc]
    simp only [iff_false_intro hc, iff_false]
    rintro ⟨e, he⟩
    simp at he

/-- Helper: the output component of `forward` is the first component of
`forwardParts`. -/
theorem forward_output (K : ConvKernels) (B : ConvolutionBuilder)
    (h : PHMeta) (f : Tensor) :
    (ConvolutionBuilder.forward K B h f).output =
      (ConvolutionBuilder.forwardParts K B h f).1 := rfl

/-- Helper: with the `builder0` fixture (single-feature convolution whose
output feature count defaulted to the input feature count), `forward`
succeeds for every input-hierarchy batch size. -/
theorem builder0_forward_ok (bs : Int) :
    (ConvolutionBuilder.forward constKernels builder0 (phWith bs)
      t0).output = Except.ok t0 := by
  show (ConvolutionBuilder.forwardParts constKernels builder0 (phWith bs)
    t0).1 = Except.ok t0
  unfold ConvolutionBuilder.forwardParts
  rw [if_neg (by simp)]
  rw [if_neg (by simp [builder0, ConvolutionBuilder.init])]
  rfl

/-- C1 counterexample: the builder raises no batch-size error at batch sizes
5 or 7, and there is no batch size the builder could have been "configured
for" that makes `forward` raise exactly on the mismatching hierarchies: the
check compares the input hierarchy with itself and never fires. -/
theorem C1_no_configured_batch_size :
    ((ConvolutionBuilder.forward constKernels builder0 (phWith 5)
        t0).output ≠ Except.error ConvError.batchMismatch) ∧
    ((ConvolutionBuilder.forward constKernels builder0 (phWith 7)
        t0).output ≠ Except.error ConvError.batchMismatch) ∧
    ¬ ∃ b : Int, ∀ bs : Int,
        (ConvolutionBuilder.forward constKernels builder0 (phWith bs)
          t0).output = Except.error ConvError.batchMismatch ↔ bs ≠ b := by
  refine ⟨by rw [builder0_forward_ok 5]; simp,
          by rw [builder0_forward_ok 7]; simp, ?_⟩
  rintro ⟨b, hb⟩
  have hmem := (hb (b + 1)).mpr (by omega)
  rw [builder0_forward_ok (b + 1)] at hmem
  simp at hmem

/-- C1 (amended): for every kernel implementation, builder state, input
hierarchy and feature tensor, `forward`'s batch-size check never raises,
because the output hierarchy it compares against is the input hierarchy
itself; in particular nothing is raised when batch sizes agree. -/
theorem C1_batch_check_never_raises (K : ConvKernels)
    (B : ConvolutionBuilder) (h : PHMeta) (f : Tensor) :
    (ConvolutionBuilder.forward K B h f).output ≠
      Except.error ConvError.batchMismatch :=
  forwardParts_ne_batchMismatch K B h f

/-- C3: `forward` never writes the three cache dictionaries (the store
statements are commented out in the source), so the post state's caches
equal the pre state's; `__init__` creates them empty; and `reset` sets all
three to empty while leaving the parameter tensors and the rest of the
configuration unchanged. -/
theorem C3_caches_never_written :
    (∀ (K : ConvKernels) (B : ConvolutionBuilder) (h : PHMeta) (f : Tensor),
      (ConvolutionBuilder.forward K B h f).post.cacheGrids_ =
        B.cacheGrids_ ∧
      (ConvolutionBuilder.forward K B h f).post.cacheNeighs_ =
        B.cacheNeighs_ ∧
      (ConvolutionBuilder.forward K B h f).post.cachePDFs_ =
        B.cachePDFs_) ∧
    (∀ kde inL outL inF outF r mf rel pdf avg dlc prm,
      (ConvolutionBuilder.init kde inL outL inF outF r mf rel pdf avg dlc
        prm).cacheGrids_ = [] ∧
      (ConvolutionBuilder.init kde inL outL inF outF r mf rel pdf avg dlc
        prm).cacheNeighs_ = [] ∧
      (ConvolutionBuilder.init kde inL outL inF outF r mf rel pdf avg dlc
        prm).cachePDFs_ = []) ∧
    (∀ B : ConvolutionBuilder,
      B.reset.cacheGrids_ = [] ∧ B.reset.cacheNeighs_ = [] ∧
      B.reset.cachePDFs_ = [] ∧ B.reset.params = B.params ∧
      B.reset.inNumFeatures = B.inNumFeatures ∧
      B.reset.outNumFeatures = B.outNumFeatures) :=
  ⟨fun _ _ _ _ => ⟨rfl, rfl, rfl⟩,
   fun _ _ _ _ _ _ _ _ _ _ _ _ => ⟨rfl, rfl, rfl⟩,
   fun _ => ⟨rfl, rfl, rfl, rfl, rfl, rfl⟩⟩

/-- C9: for a builder constructed with the multi-feature flag false,
`forward` raises exactly when the stored output feature count differs from
the stored input feature count; and constructing with `outNumFeatures = -1`
makes the output feature count default to the input feature count, so the
check never fires. -/
theorem C9_feature_check (K : ConvKernels) (kde : ℚ) (inL outL : Nat)
    (inF outF : Int) (r : ℚ) (rel pdf avg : Bool) (dlc : String)
    (prm : ConvParams) (h : PHMeta) (f : Tensor) :
    ((∃ e, (ConvolutionBuilder.forward K
        (ConvolutionBuilder.init kde inL outL inF outF r false rel pdf avg
          dlc prm) h f).output = Except.error e) ↔
      (ConvolutionBuilder.init kde inL outL inF outF r false rel pdf avg
        dlc prm).outNumFeatures ≠
      (ConvolutionBuilder.init kde inL outL inF outF r false rel pdf avg
        dlc prm).inNumFeatures) ∧
    ((ConvolutionBuilder.init kde inL outL inF (-1) r false rel pdf avg
        dlc prm).outNumFeatures = inF) ∧
    (∀ e, (ConvolutionBuilder.forward K
        (ConvolutionBuilder.init kde inL outL inF (-1) r false rel pdf avg
          dlc prm) h f).output ≠ Except.error e) := by
  refine ⟨?_, by simp [ConvolutionBuilder.init], ?_⟩
  · rw [forward_output, forwardParts_error_iff]
    simp [ConvolutionBuilder.init]
  · intro e he
    rw [forward_output] at he
    have hex : ∃ e, (ConvolutionBuilder.forwardParts K
        (ConvolutionBuilder.init kde inL outL inF (-1) r false rel pdf avg
          dlc prm) h f).1 = Except.error e := ⟨e, he⟩
    rw [forwardParts_error_iff] at hex
    simp [ConvolutionBuilder.init] at hex

/-- Helper: the trace component of `forward` is the second component of
`forwardParts`. -/
theorem forward_trace (K : ConvKernels) (B : ConvolutionBuilder)
    (h : PHMeta) (f : Tensor) :
    (ConvolutionBuilder.forward K B h f).trace =
      (ConvolutionBuilder.forwardParts K B h f).2 := rfl

/-- Helper: the grid step never records a `spatial_conv` call. -/
theorem gridStepF_no_spatial (K : ConvKernels) (self : ConvolutionBuilder)
    (h : PHMeta) (f : Tensor) (key : String) (a : SpatialConvArgs) :
    COp.opSpatialConv a ∉ (gridStepF K self h f key).2.2 := by
  unfold gridStepF
  cases List.lookup key self.cacheGrids_ <;> simp

/-- Helper: the neighbor step never records a `spatial_conv` call. -/
theorem neighStepF_no_spatial (K : ConvKernels) (self : ConvolutionBuilder)
    (h : PHMeta) (key : String) (g : GridTuple) (a : SpatialConvArgs) :
    COp.opSpatialConv a ∉ (neighStepF K self h key g).2 := by
  unfold neighStepF
  cases List.lookup key self.cacheNeighs_ <;> simp

/-- Helper: the PDF step never records a `spatial_conv` call. -/
theorem pdfStepF_no_spatial (K : ConvKernels) (self : ConvolutionBuilder)
    (h : PHMeta) (key : String) (g : GridTuple) (nb : Tensor × Tensor)
    (a : SpatialConvArgs) :
    COp.opSpatialConv a ∉ (pdfStepF K self h key g nb).2 := by
  unfold pdfStepF
  split
  · simp
  · split <;> simp

/-- Helper: with an empty PDF cache and the use-PDF flag off, the PDF step
produces a float32 tensor of ones with one row per packed neighbor entry. -/
theorem pdfStepF_ones (K : ConvKernels) (self : ConvolutionBuilder)
    (h : PHMeta) (key : String) (g : GridTuple) (nb : Tensor × Tensor)
    (hpdf : self.cachePDFs_ = []) (hflag : self.usePDF_ = false) :
    pdfStepF K self h key g nb =
      (torch_ones [nb.2.shape.headD 0, 1] DType.float32, []) := by
  unfold pdfStepF
  rw [hpdf]
  simp [hflag]

/-- Helper: with an empty PDF cache and the use-PDF flag on, the PDF step's
tensor comes out of the no-gradient scope around `compute_pdf`, so it does
not track gradients. -/
theorem pdfStepF_noGrad (K : ConvKernels) (self : ConvolutionBuilder)
    (h : PHMeta) (key : String) (g : GridTuple) (nb : Tensor × Tensor)
    (hpdf : self.cachePDFs_ = []) (hflag : self.usePDF_ = true) :
    (pdfStepF K self h key g nb).1.requiresGrad = false := by
  unfold pdfStepF
  rw [hpdf]
  simp [hflag, noGrad]

/-- C10: whenever the PDF cache is empty (its only possible state, since
`forward` never fills it), the PDF tensor handed to `spatial_conv` is a
float32 tensor of ones with one row per packed neighbor entry when the
use-PDF flag is off, and carries no gradient (it was computed inside
`torch.no_grad()`) when the flag is on. -/
theorem C10_pdf_selection (K : ConvKernels) (B : ConvolutionBuilder)
    (h : PHMeta) (f : Tensor) (args : SpatialConvArgs)
    (hpdf : B.cachePDFs_ = [])
    (hmem : COp.opSpatialConv args ∈
      (ConvolutionBuilder.forward K B h f).trace) :
    (B.usePDF_ = false →
      args.pdfs =
        torch_ones [args.packedNeighs.shape.headD 0, 1] DType.float32) ∧
    (B.usePDF_ = true → args.pdfs.requiresGrad = false) := by
  rw [forward_trace] at hmem
  unfold ConvolutionBuilder.forwardParts at hmem
  rw [if_neg (by simp)] at hmem
  by_cases hc : B.multiFeatureConvs_ = false ∧
      B.outNumFeatures ≠ B.inNumFeatures
  · rw [if_pos hc] at hmem
    simp at hmem
  · rw [if_neg hc] at hmem
    simp only [List.mem_append, List.mem_singleton] at hmem
    rcases hmem with ((hg | hn) | hp) | he
    · exact absurd hg (gridStepF_no_spatial _ _ _ _ _ _)
    · exact absurd hn (neighStepF_no_spatial _ _ _ _ _ _)
    · exact absurd hp (pdfStepF_no_spatial _ _ _ _ _ _ _)
    · rw [COp.opSpatialConv.injEq] at he
      subst he
      constructor
      · intro hflag
        rw [convArgsF, pdfStepF_ones _ _ _ _ _ _ hpdf hflag]
      · intro hflag
        show (convArgsF B h _ _ _ _).pdfs.requiresGrad = false
        rw [convArgsF]
        exact pdfStepF_noGrad _ _ _ _ _ _ hpdf hflag

/-- Concrete `spatial_conv` argument record produced by running the
embedded `forward` on the fixtures (used to witness the PDF-selection
theorem). -/
def argsW : SpatialConvArgs :=
  convArgsF builder0 (phWith 8) (t0, t0, t0, t0) t0 (t0, t0)
    (torch_ones [1, 1] DType.float32)

/-- C10 witness: on the concrete fixtures the hypotheses of the
PDF-selection theorem hold and its conclusion is realized. -/
theorem C10_pdf_selection_witness :
    (builder0.cachePDFs_ = [] ∧
     COp.opSpatialConv argsW ∈
       (ConvolutionBuilder.forward constKernels builder0 (phWith 8)
         t0).trace) ∧
    ((builder0.usePDF_ = false →
       argsW.pdfs =
         torch_ones [argsW.packedNeighs.shape.headD 0, 1] DType.float32) ∧
     (builder0.usePDF_ = true → argsW.pdfs.requiresGrad = false)) :=
  ⟨⟨rfl, by decide⟩,
   C10_pdf_selection constKernels builder0 (phWith 8) t0 argsW rfl
     (by decide)⟩

/-- C2: the caches are claimed to make a second identical `forward` call
skip the geometric recomputation; in fact the first call leaves all three
caches empty (the store statements are commented out in the source), so a
second call with the identical hierarchy name, level, radius and
relative-radius flag runs `sort_points_step1`, `sort_points_step2`,
`find_neighbors` and `compute_pdf` again. -/
theorem C2_second_call_recomputes :
    ((ConvolutionBuilder.forward constKernels builderPDF (phWith 8)
        t0).post.cacheGrids_ = [] ∧
     (ConvolutionBuilder.forward constKernels builderPDF (phWith 8)
        t0).post.cacheNeighs_ = [] ∧
     (ConvolutionBuilder.forward constKernels builderPDF (phWith 8)
        t0).post.cachePDFs_ = []) ∧
    (COp.opSortStep1 ∈ (ConvolutionBuilder.forward constKernels
        (ConvolutionBuilder.forward constKernels builderPDF (phWith 8)
          t0).post (phWith 8) t0).trace ∧
     COp.opSortStep2 ∈ (ConvolutionBuilder.forward constKernels
        (ConvolutionBuilder.forward constKernels builderPDF (phWith 8)
          t0).post (phWith 8) t0).trace ∧
     COp.opFindNeighbors ∈ (ConvolutionBuilder.forward constKernels
        (ConvolutionBuilder.forward constKernels builderPDF (phWith 8)
          t0).post (phWith 8) t0).trace ∧
     COp.opComputePdf ∈ (ConvolutionBuilder.forward constKernels
        (ConvolutionBuilder.forward constKernels builderPDF (phWith 8)
          t0).post (phWith 8) t0).trace) := by
  refine ⟨⟨rfl, rfl, rfl⟩, by decide, by decide, by decide, by decide⟩

/-- Helper: each loop iteration appends exactly one element to the point,
feature, batch-id and sampled-index lists, and appends the radius verbatim,
so the lists produced by the loop have one entry per radius and the radius
list is reproduced exactly. -/
theorem hierarchyLevels_lengths {T : Type} (K : HierKernels T) (mn mx : T)
    (bs : Int) (rel : Bool) :
    ∀ (rl : List ℚ) (cp cf cb : T),
      (hierarchyLevels K mn mx bs rel rl cp cf cb).1.length = rl.length ∧
      (hierarchyLevels K mn mx bs rel rl cp cf cb).2.1.length =
        rl.length ∧
      (hierarchyLevels K mn mx bs rel rl cp cf cb).2.2.1.length =
        rl.length ∧
      (hierarchyLevels K mn mx bs rel rl cp cf cb).2.2.2.1.length =
        rl.length ∧
      (hierarchyLevels K mn mx bs rel rl cp cf cb).2.2.2.2.1 = rl := by
  intro rl
  induction rl with
  | nil => intro cp cf cb; exact ⟨rfl, rfl, rfl, rfl, rfl⟩
  | cons r rest ih =>
    intro cp cf cb
    simp only [hierarchyLevels, List.length_cons]
    refine ⟨?_, ?_, ?_, ?_, ?_⟩ <;>
      simp [(ih _ _ _).1, (ih _ _ _).2.1, (ih _ _ _).2.2.1,
        (ih _ _ _).2.2.2.1, (ih _ _ _).2.2.2.2]

/-- Helper: every event emitted by the loop is a `step1`/`step2`/`poisson`
call carrying exactly the AABB pair the loop was given; in particular the
loop performs no `compute_aabb` call. -/
theorem hierarchyLevels_trace {T : Type} [DecidableEq T]
    (K : HierKernels T) (mn mx : T) (bs : Int) (rel : Bool) :
    ∀ (rl : List ℚ) (cp cf cb : T),
      ∀ e ∈ (hierarchyLevels K mn mx bs rel rl cp cf cb).2.2.2.2.2,
        e.isAabbCall = false ∧ e.aabbOk mn mx = true := by
  intro rl
  induction rl with
  | nil => intro cp cf cb e he; simp [hierarchyLevels] at he
  | cons r rest ih =>
    intro cp cf cb e he
    simp only [hierarchyLevels, List.mem_cons] at he
    rcases he with rfl | rfl | rfl | he
    · exact ⟨rfl, by simp [HEvent.aabbOk]⟩
    · exact ⟨rfl, by simp [HEvent.aabbOk]⟩
    · exact ⟨rfl, by simp [HEvent.aabbOk]⟩
    · exact ih _ _ _ e he

/-- C7: the hierarchy constructor produces `len(radiusList) + 1` levels in
each of the point, feature, batch-id and radius lists, one fewer sampled
index mapping than levels, radius `0` at level 0, the raw input tensors at
level 0, and, for an empty radius list, exactly the level-0 lists. -/
theorem C7_hierarchy_shape {T : Type} (K : HierKernels T) (p f b : T)
    (rl : List ℚ) (nm : String) (bs : Int) (rel : Bool) :
    ((PointHierarchy.build K p f b rl nm bs rel).1.points_.length =
       rl.length + 1 ∧
     (PointHierarchy.build K p f b rl nm bs rel).1.features_.length =
       rl.length + 1 ∧
     (PointHierarchy.build K p f b rl nm bs rel).1.batchIds_.length =
       rl.length + 1 ∧
     (PointHierarchy.build K p f b rl nm bs rel).1.radiusList_.length =
       rl.length + 1 ∧
     (PointHierarchy.build K p f b rl nm bs rel).1.sampledIndexs_.length =
       rl.length) ∧
    ((PointHierarchy.build K p f b rl nm bs rel).1.radiusList_.head? =
       some 0 ∧
     (PointHierarchy.build K p f b rl nm bs rel).1.points_.head? =
       some p ∧
     (PointHierarchy.build K p f b rl nm bs rel).1.features_.head? =
       some f ∧
     (PointHierarchy.build K p f b rl nm bs rel).1.batchIds_.head? =
       some b) ∧
    ((PointHierarchy.build K p f b [] nm bs rel).1.points_ = [p] ∧
     (PointHierarchy.build K p f b [] nm bs rel).1.features_ = [f] ∧
     (PointHierarchy.build K p f b [] nm bs rel).1.batchIds_ = [b] ∧
     (PointHierarchy.build K p f b [] nm bs rel).1.sampledIndexs_ = [] ∧
     (PointHierarchy.build K p f b [] nm bs rel).1.radiusList_ = [0]) := by
  have hl := hierarchyLevels_lengths K
    (K.compute_aabb p b bs rel).1 (K.compute_aabb p b bs rel).2 bs rel
    rl p f b
  refine ⟨⟨?_, ?_, ?_, ?_, ?_⟩, ⟨rfl, rfl, rfl, rfl⟩,
    rfl, rfl, rfl, rfl, rfl⟩ <;>
    simp [PointHierarchy.build, hl.1, hl.2.1, hl.2.2.1, hl.2.2.2.1,
      hl.2.2.2.2]

/-- C8: during hierarchy construction `compute_aabb` is called exactly once,
on the level-0 input points and batch ids, the hierarchy's stored AABB pair
is that call's result, and every `sort_points_step1`, `sort_points_step2`
and `poisson_sampling` call receives exactly that level-0 AABB pair. -/
theorem C8_aabb_once {T : Type} [DecidableEq T] (K : HierKernels T)
    (p f b : T) (rl : List ℚ) (nm : String) (bs : Int) (rel : Bool) :
    (PointHierarchy.build K p f b rl nm bs rel).1.aabbMin_ =
      (K.compute_aabb p b bs rel).1 ∧
    (PointHierarchy.build K p f b rl nm bs rel).1.aabbMax_ =
      (K.compute_aabb p b bs rel).2 ∧
    ((PointHierarchy.build K p f b rl nm bs rel).2.filter
      HEvent.isAabbCall = [HEvent.aabbCall p b bs rel]) ∧
    ∀ e ∈ (PointHierarchy.build K p f b rl nm bs rel).2,
      HEvent.aabbOk (PointHierarchy.build K p f b rl nm bs rel).1.aabbMin_
        (PointHierarchy.build K p f b rl nm bs rel).1.aabbMax_ e = true := by
  have ht := hierarchyLevels_trace K
    (K.compute_aabb p b bs rel).1 (K.compute_aabb p b bs rel).2 bs rel
    rl p f b
  refine ⟨rfl, rfl, ?_, ?_⟩
  · show List.filter _ (HEvent.aabbCall p b bs rel :: _) = _
    rw [List.filter_cons_of_pos (by rfl)]
    rw [List.filter_eq_nil_iff.mpr (fun e he => by simp [(ht e he).1])]
  · intro e he
    rcases List.mem_cons.mp he with rfl | he2
    · rfl
    · exact (ht e he2).2

/-- C8 witness: on concrete `Nat`-valued kernels whose `compute_aabb`
returns `(7, 9)` and a one-radius list, the first grid-sort event is in the
trace and carries the level-0 AABB pair. -/
theorem C8_aabb_once_witness :
    (HEvent.step1Call (7 : Nat) 9 ∈
      (PointHierarchy.build natKernels 0 0 0 [2] "PH" 4 true).2) ∧
    HEvent.aabbOk
      (PointHierarchy.build natKernels 0 0 0 [2] "PH" 4 true).1.aabbMin_
      (PointHierarchy.build natKernels 0 0 0 [2] "PH" 4 true).1.aabbMax_
      (HEvent.step1Call (7 : Nat) 9) = true :=
  ⟨by decide,
   (C8_aabb_once natKernels 0 0 0 [2] "PH" 4 true).2.2.2
     (HEvent.step1Call 7 9) (by decide)⟩

end MCC
